import Mathlib

/-!
Shallow embedding of the video-clipping helpers in `src/utils.py`
(`generate_subtitles`, `save_clip`, `apply_filter`), together with
theorems about their chunking, cropping, subtitle retiming, error
recovery and output-encoding behaviour.

Times are modelled as exact rationals (seconds); pixel dimensions and
audio lengths in milliseconds as naturals.  The external speech
recogniser and the per-window failure modes are modelled by an oracle
`Nat → WinOutcome` indexed by the window's start offset in
milliseconds.
-/

namespace Viral

/-- A subtitle segment `(start_time, end_time, text)`, times in seconds. -/
abbrev Segment := ℚ × ℚ × String

/-- Python `range(0, stop, step)` for a positive `step`: the list
`[0, step, 2*step, ...]` of all multiples of `step` below `stop`. -/
def rangeStep (stop step : Nat) : List Nat :=
  (List.range ((stop + step - 1) / step)).map (fun k => k * step)

/-- `start_time = i / 1000` of the window starting at `i` milliseconds
(line 45 of `utils.py`). -/
def winStart (i : Nat) : ℚ := (i : ℚ) / 1000

/-- `end_time = min((i + chunk_duration) / 1000, len(audio) / 1000)` for the
window starting at `i` milliseconds of an audio of `L` milliseconds
(line 46 of `utils.py`). -/
def winEnd (L i : Nat) : ℚ := min (((i : ℚ) + 10000) / 1000) ((L : ℚ) / 1000)

/-- The `(start_time, end_time)` pairs of the 10-second transcription
windows of an audio of `L` milliseconds, in loop order
(`for i in range(0, len(audio), chunk_duration)`, lines 34-46). -/
def windows (L : Nat) : List (ℚ × ℚ) :=
  (rangeStep L 10000).map (fun i => (winStart i, winEnd L i))

/-- Outcome of processing one window inside the loop body of
`generate_subtitles` (lines 36-53): `ok text` — `recognize_google`
returns `text`; `recFail` — `recognize_google` raises and the bare
`except` on line 48 swallows it; `err` — an exception outside the inner
`try` (e.g. `sr.AudioFile` or `recognizer.record` on lines 41-42) escapes
to the outer handler on line 56. -/
inductive WinOutcome
  | ok (text : String)
  | recFail
  | err
deriving DecidableEq

/-- The loop of `generate_subtitles` over the remaining window offsets:
`none` means an exception escaped to the outer handler; otherwise the
list of collected `(start_time, end_time, text)` segments. -/
def processWindows (L : Nat) (f : Nat → WinOutcome) : List Nat → Option (List Segment)
  | [] => some []
  | i :: rest =>
    match f i with
    | .err => none
    | .recFail => processWindows L f rest
    | .ok t => (processWindows L f rest).map (fun s => (winStart i, winEnd L i, t) :: s)

/-- `generate_subtitles` (lines 24-58): `load = none` models
`AudioSegment.from_wav` failing (the outer `except` returns `[]`,
line 58); `load = some L` is an audio of `L` milliseconds.  If the loop
raises, the outer handler likewise returns `[]`. -/
def generate_subtitles (load : Option Nat) (f : Nat → WinOutcome) : List Segment :=
  match load with
  | none => []
  | some L => (processWindows L f (rangeStep L 10000)).getD []

/-- File-system events on the temporary chunk files `temp_chunk_{i}.wav`:
`create i` is `chunk.export` (line 39), `remove i` is `os.remove`
(line 53). -/
inductive Ev
  | create (i : Nat)
  | remove (i : Nat)
deriving DecidableEq

/-- The temp-file event trace of the loop of `generate_subtitles`: each
window exports its chunk file, then — unless an exception outside the
inner `try` aborts the loop (`err`, which skips the `os.remove` on
line 53) — removes it and moves to the next window. -/
def windowTrace (f : Nat → WinOutcome) : List Nat → List Ev
  | [] => []
  | i :: rest =>
    match f i with
    | .err => [Ev.create i]
    | _ => Ev.create i :: Ev.remove i :: windowTrace f rest

/-- The window indices whose temp chunk file is created but never removed
in the trace `tr`. -/
def leakedFiles (tr : List Ev) : List Nat :=
  (tr.filterMap (fun e => match e with | Ev.create i => some i | _ => none)).filter
    (fun i => !(tr.contains (Ev.remove i)))

/-- The crop rectangle `x1 ≤ x < x2, y1 ≤ y < y2` passed to `clip.crop`. -/
structure CropBox where
  x1 : Nat
  y1 : Nat
  x2 : Nat
  y2 : Nat
deriving DecidableEq

/-- The vertical-format reframing of `save_clip` (lines 67-81) on a clip
of width `w`, height `h` (integer pixels).  The float comparison
`clip.w / clip.h > 9/16` is exact integer comparison `16*w > 9*h`
(for positive `h`), `int(clip.h * (9/16))` is `9*h/16` rounded down, and
`int(clip.w / (9/16))` is `16*w/9` rounded down; `else` leaves the frame
uncropped. -/
def verticalCrop (w h : Nat) : CropBox :=
  if 16 * w > 9 * h then
    let new_width := 9 * h / 16
    let crop_x1 := (w - new_width) / 2
    ⟨crop_x1, 0, crop_x1 + new_width, h⟩
  else if 16 * w < 9 * h then
    let new_height := 16 * w / 9
    let crop_y1 := (h - new_height) / 2
    ⟨0, crop_y1, w, crop_y1 + new_height⟩
  else ⟨0, 0, w, h⟩

/-- Width of a crop box. -/
def croppedW (c : CropBox) : Nat := c.x2 - c.x1

/-- Height of a crop box. -/
def croppedH (c : CropBox) : Nat := c.y2 - c.y1

/-- The subtitle-selection test of `save_clip` (line 89):
`et > start_time and st < end_time`. -/
def segSelected (cs ce : ℚ) (seg : Segment) : Bool :=
  decide (seg.2.1 > cs) && decide (seg.1 < ce)

/-- The retiming of one selected segment (line 87):
`(max(0, st - start_time), min(et - start_time, end_time - start_time), text)`. -/
def retimeSeg (cs ce : ℚ) (seg : Segment) : Segment :=
  (max 0 (seg.1 - cs), min (seg.2.1 - cs) (ce - cs), seg.2.2)

/-- The `clip_subtitles` list comprehension of `save_clip` (lines 86-90):
keep the segments overlapping the clip range and retime them to
clip-relative coordinates. -/
def clip_subtitles (cs ce : ℚ) (subs : List Segment) : List Segment :=
  (subs.filter (segSelected cs ce)).map (retimeSeg cs ce)

/-- The rendered output of `save_clip`: the crop rectangle applied to the
working clip, the clip-relative captions overlaid on it, and the codecs
passed to `write_videofile`. -/
structure Rendered where
  crop : CropBox
  captions : List Segment
  codec : String
  audio_codec : String
deriving DecidableEq

/-- `save_clip` (lines 60-117) on a source frame of `w × h` pixels and the
clip range `[start_time, end_time)`: optional 9:16 reframing (lines
67-81), subtitle selection and retiming when `subtitles` is nonempty
(lines 84-109), and the fixed `codec='libx264', audio_codec='aac'`
write (line 112). -/
def save_clip (w h : Nat) (start_time end_time : ℚ)
    (subtitles : List Segment) (vertical : Bool) : Rendered :=
  let c := if vertical then verticalCrop w h else ⟨0, 0, w, h⟩
  let caps := if subtitles.isEmpty then [] else clip_subtitles start_time end_time subtitles
  ⟨c, caps, "libx264", "aac"⟩

/-- The moviepy transforms that `apply_filter` can dispatch to
(lines 125-138), with their fixed parameters. -/
inductive Transform
  | blackwhite
  | colorx (factor : ℚ)
  | lum_contrast (contrast : ℚ)
  | sepia
  | vignette
  | gaussian_blur (sigma : ℚ)
deriving DecidableEq

/-- The `if/elif` dispatch of `apply_filter` (lines 125-138): the
transform selected for `filter_name`, or `none` when no branch matches
(the clip is then left unmodified). -/
def selectFilter (filter_name : String) : Option Transform :=
  if filter_name = "grayscale" then some Transform.blackwhite
  else if filter_name = "bright" then some (Transform.colorx (3/2))
  else if filter_name = "dark" then some (Transform.colorx (7/10))
  else if filter_name = "contrast" then some (Transform.lum_contrast (3/2))
  else if filter_name = "sepia" then some Transform.sepia
  else if filter_name = "vignette" then some Transform.vignette
  else if filter_name = "blur" then some (Transform.gaussian_blur 1)
  else none

/-- The rendered output of `apply_filter`: the source clip's transform
history after the dispatch, and the codecs passed to `write_videofile`
(line 141). -/
structure Filtered where
  transforms : List Transform
  codec : String
  audio_codec : String
deriving DecidableEq

/-- `apply_filter` (lines 119-146): a clip is modelled by its history of
applied transforms; a matched branch appends its transform, an
unrecognized name leaves the clip as loaded. -/
def apply_filter (filter_name : String) (source : List Transform) : Filtered :=
  let c :=
    match selectFilter filter_name with
    | some t => source ++ [t]
    | none => source
  ⟨c, "libx264", "aac"⟩

/-! ### Helper lemmas -/

/-- Membership in the selection filter unfolds to the overlap test. -/
theorem mem_filter_segSelected (cs ce : ℚ) (subs : List Segment) (s e : ℚ) (t : String) :
    (s, e, t) ∈ subs.filter (segSelected cs ce) ↔
      (s, e, t) ∈ subs ∧ cs < e ∧ s < ce := by
  simp [List.mem_filter, segSelected]

/-- An unknown filter name falls through every branch of the dispatch. -/
theorem selectFilter_unknown (name : String)
    (h : name ∉ (["grayscale", "bright", "dark", "contrast",
                  "sepia", "vignette", "blur"] : List String)) :
    selectFilter name = none := by
  simp only [List.mem_cons, List.not_mem_nil, or_false, not_or] at h
  obtain ⟨h1, h2, h3, h4, h5, h6, h7⟩ := h
  unfold selectFilter
  rw [if_neg h1, if_neg h2, if_neg h3, if_neg h4, if_neg h5, if_neg h6, if_neg h7]

/-- The windows list has one entry per started 10000 ms chunk. -/
theorem windows_length (L : Nat) : (windows L).length = (L + 9999) / 10000 := by
  simp [windows, rangeStep]

/-- Entry `k` of the windows list, in seconds. -/
theorem windows_get (L k : Nat) (hk : k < (windows L).length) :
    (windows L).get ⟨k, hk⟩ =
      (10 * (k : ℚ), min (10 * (k : ℚ) + 10) ((L : ℚ) / 1000)) := by
  have hk2 : k < (L + 9999) / 10000 := by rw [windows_length] at hk; exact hk
  rw [List.get_eq_getElem]
  simp only [windows, rangeStep, List.getElem_map, List.getElem_range, Prod.mk.injEq]
  constructor
  · unfold winStart; push_cast; ring
  · unfold winEnd; congr 1; push_cast; ring

/-- The chunk count is the ceiling of the duration over the window size. -/
theorem chunk_count_eq_ceil (L : Nat) :
    Nat.ceil ((L : ℚ) / 1000 / 10) = (L + 9999) / 10000 := by
  have hq : (L : ℚ) / 1000 / 10 = (L : ℚ) / 10000 := by ring
  rw [hq]
  rcases Nat.eq_zero_or_pos L with h0 | hpos
  · subst h0; simp
  · have hn0 : (L + 9999) / 10000 ≠ 0 := by omega
    rw [Nat.ceil_eq_iff hn0]
    have h1 : 10000 * ((L + 9999) / 10000) < L + 10000 := by omega
    have h2 : L ≤ 10000 * ((L + 9999) / 10000) := by omega
    have q1 : (10000 : ℚ) * ((((L + 9999) / 10000 : Nat)) : ℚ) < L + 10000 := by
      exact_mod_cast h1
    have q2 : (L : ℚ) ≤ 10000 * ((((L + 9999) / 10000 : Nat)) : ℚ) := by
      exact_mod_cast h2
    have hn1 : 1 ≤ (L + 9999) / 10000 := by omega
    constructor
    · rw [Nat.cast_sub hn1, lt_div_iff₀ (by norm_num : (0 : ℚ) < 10000)]
      push_cast
      linarith
    · rw [div_le_iff₀ (by norm_num : (0 : ℚ) < 10000)]
      linarith

/-- When no window hits a non-recognition failure, the loop completes and
collects exactly the segments of the successfully recognized windows. -/
theorem processWindows_no_err (L : Nat) (f : Nat → WinOutcome) :
    ∀ l, (∀ i ∈ l, f i ≠ WinOutcome.err) →
      processWindows L f l = some (l.filterMap fun i =>
        match f i with
        | WinOutcome.ok t => some (winStart i, winEnd L i, t)
        | _ => none)
  | [], _ => rfl
  | i :: rest, hl => by
    have hi := hl i (List.mem_cons_self i rest)
    have hr := processWindows_no_err L f rest fun j hj => hl j (List.mem_cons_of_mem i hj)
    cases hfi : f i with
    | err => exact absurd hfi hi
    | recFail => simp [processWindows, hfi, hr]
    | ok t => simp [processWindows, hfi, hr]

/-- A non-recognition failure in any window aborts the loop. -/
theorem processWindows_err (L : Nat) (f : Nat → WinOutcome) :
    ∀ l i, i ∈ l → f i = WinOutcome.err → processWindows L f l = none
  | j :: rest, i, hmem, herr => by
    rcases List.mem_cons.mp hmem with rfl | hmem2
    · simp [processWindows, herr]
    · cases hfj : f j with
      | err => simp [processWindows, hfj]
      | recFail =>
        simp only [processWindows, hfj]
        exact processWindows_err L f rest i hmem2 herr
      | ok t => simp [processWindows, hfj, processWindows_err L f rest i hmem2 herr]

/-- When no window hits a non-recognition failure, every window's temp
chunk file is created and then removed before the next window starts. -/
theorem windowTrace_no_err (f : Nat → WinOutcome) :
    ∀ l, (∀ i ∈ l, f i ≠ WinOutcome.err) →
      windowTrace f l = l.flatMap fun i => [Ev.create i, Ev.remove i]
  | [], _ => rfl
  | i :: rest, hl => by
    have hi := hl i (List.mem_cons_self i rest)
    have hr := windowTrace_no_err f rest fun j hj => hl j (List.mem_cons_of_mem i hj)
    cases hfi : f i with
    | err => exact absurd hfi hi
    | recFail => simp [windowTrace, hfi, hr]
    | ok t => simp [windowTrace, hfi, hr]

/-- A create/remove-paired trace leaks no temp file. -/
theorem leakedFiles_paired (l : List Nat) :
    leakedFiles (l.flatMap fun i => [Ev.create i, Ev.remove i]) = [] := by
  unfold leakedFiles
  rw [List.filter_eq_nil_iff]
  intro a ha
  obtain ⟨e, he, hg⟩ := List.mem_filterMap.mp ha
  obtain ⟨i, hi, hei⟩ := List.mem_flatMap.mp he
  simp only [List.mem_cons, List.not_mem_nil, or_false] at hei
  rcases hei with rfl | rfl
  · have hia : i = a := by simpa using hg
    subst hia
    simp [List.elem_iff, List.mem_flatMap]
    exact hi
  · simp at hg

/-- A transcription oracle succeeding at windows 0 and 20000 ms and hitting
a recognition failure at window 10000 ms. -/
def demoOracle : Nat → WinOutcome :=
  fun j => if j = 0 then WinOutcome.ok "a"
    else if j = 10000 then WinOutcome.recFail else WinOutcome.ok "b"

/-- A transcription oracle whose window at 10000 ms hits a failure outside
the recognition attempt. -/
def demoOracleErr : Nat → WinOutcome :=
  fun j => if j = 0 then WinOutcome.ok "a" else WinOutcome.err

/-! ### Claim theorems -/

/-- C1: with `vertical = True`, a too-wide clip (`w/h > 9/16`) is
center-cropped left/right to `floor(h * 9/16)`, a too-tall clip is
center-cropped top/bottom to `floor(w * 16/9)`, an exact 9:16 clip is
left uncropped; the cropped dimensions never exceed the originals, the
post-crop aspect misses 9:16 by less than one pixel of width, and the
two sides of the cropped axis lose equally many pixels up to one. -/
theorem save_clip_vertical_crop (w h : Nat) (cs ce : ℚ) (subs : List Segment)
    (hw : 0 < w) (hh : 0 < h) :
    (save_clip w h cs ce subs true).crop = verticalCrop w h ∧
    (9 * h < 16 * w →
      croppedW (verticalCrop w h) = 9 * h / 16 ∧ croppedH (verticalCrop w h) = h) ∧
    (16 * w < 9 * h →
      croppedH (verticalCrop w h) = 16 * w / 9 ∧ croppedW (verticalCrop w h) = w) ∧
    (16 * w = 9 * h → verticalCrop w h = ⟨0, 0, w, h⟩) ∧
    croppedW (verticalCrop w h) ≤ w ∧ croppedH (verticalCrop w h) ≤ h ∧
    (verticalCrop w h).x2 ≤ w ∧ (verticalCrop w h).y2 ≤ h ∧
    |(croppedW (verticalCrop w h) : ℚ) - 9 * (croppedH (verticalCrop w h) : ℚ) / 16| < 1 ∧
    |((verticalCrop w h).x1 : ℤ) - ((w : ℤ) - ((verticalCrop w h).x2 : ℤ))| ≤ 1 ∧
    |((verticalCrop w h).y1 : ℤ) - ((h : ℤ) - ((verticalCrop w h).y2 : ℤ))| ≤ 1 := by
  refine ⟨rfl, ?_⟩
  rcases Nat.lt_trichotomy (16 * w) (9 * h) with hlt | heq | hgt
  · -- too tall: crop top and bottom to height 16*w/9
    have hvc : verticalCrop w h =
        ⟨0, (h - 16 * w / 9) / 2, w, (h - 16 * w / 9) / 2 + 16 * w / 9⟩ := by
      unfold verticalCrop
      rw [if_neg (by omega), if_pos hlt]
    rw [hvc]
    refine ⟨?_, ?_, ?_, ?_, ?_, ?_, ?_, ?_, ?_, ?_⟩
    · intro hc
      exact absurd hc (by omega)
    · intro hc
      refine ⟨?_, ?_⟩ <;> (dsimp only [croppedW, croppedH]; omega)
    · intro hc
      exact absurd hc (by omega)
    · dsimp only [croppedW]
      omega
    · dsimp only [croppedH]
      omega
    · dsimp only
      omega
    · dsimp only
      omega
    · dsimp only [croppedW, croppedH]
      have e1 : (h - 16 * w / 9) / 2 + 16 * w / 9 - (h - 16 * w / 9) / 2 = 16 * w / 9 := by
        omega
      have e2 : w - 0 = w := by omega
      rw [e1, e2]
      have d1 : 9 * (16 * w / 9) ≤ 16 * w := by omega
      have d2 : 16 * w < 9 * (16 * w / 9) + 9 := by omega
      have q1 : (9 : ℚ) * ((16 * w / 9 : Nat) : ℚ) ≤ 16 * (w : ℚ) := by exact_mod_cast d1
      have q2 : (16 : ℚ) * w < 9 * ((16 * w / 9 : Nat) : ℚ) + 9 := by exact_mod_cast d2
      rw [abs_sub_lt_iff]
      constructor <;> linarith
    · dsimp only
      rw [abs_le]
      constructor <;> omega
    · dsimp only
      rw [abs_le]
      constructor <;> omega
  · -- already 9:16: no crop
    have hvc : verticalCrop w h = ⟨0, 0, w, h⟩ := by
      unfold verticalCrop
      rw [if_neg (by omega), if_neg (by omega)]
    rw [hvc]
    have q : (16 : ℚ) * w = 9 * (h : ℚ) := by exact_mod_cast heq
    refine ⟨?_, ?_, ?_, ?_, ?_, ?_, ?_, ?_, ?_, ?_⟩
    · intro hc
      exact absurd hc (by omega)
    · intro hc
      exact absurd hc (by omega)
    · intro _
      rfl
    · dsimp only [croppedW]
      omega
    · dsimp only [croppedH]
      omega
    · dsimp only
      omega
    · dsimp only
      omega
    · dsimp only [croppedW, croppedH]
      have e2 : w - 0 = w := by omega
      have e3 : h - 0 = h := by omega
      rw [e2, e3, abs_sub_lt_iff]
      constructor <;> linarith
    · dsimp only
      rw [abs_le]
      constructor <;> omega
    · dsimp only
      rw [abs_le]
      constructor <;> omega
  · -- too wide: crop left and right to width 9*h/16
    have hvc : verticalCrop w h =
        ⟨(w - 9 * h / 16) / 2, 0, (w - 9 * h / 16) / 2 + 9 * h / 16, h⟩ := by
      unfold verticalCrop
      rw [if_pos hgt]
    rw [hvc]
    refine ⟨?_, ?_, ?_, ?_, ?_, ?_, ?_, ?_, ?_, ?_⟩
    · intro hc
      refine ⟨?_, ?_⟩ <;> (dsimp only [croppedW, croppedH]; omega)
    · intro hc
      exact absurd hc (by omega)
    · intro hc
      exact absurd hc (by omega)
    · dsimp only [croppedW]
      omega
    · dsimp only [croppedH]
      omega
    · dsimp only
      omega
    · dsimp only
      omega
    · dsimp only [croppedW, croppedH]
      have e1 : (w - 9 * h / 16) / 2 + 9 * h / 16 - (w - 9 * h / 16) / 2 = 9 * h / 16 := by
        omega
      have e3 : h - 0 = h := by omega
      rw [e1, e3]
      have d1 : 16 * (9 * h / 16) ≤ 9 * h := by omega
      have d2 : 9 * h < 16 * (9 * h / 16) + 16 := by omega
      have q1 : (16 : ℚ) * ((9 * h / 16 : Nat) : ℚ) ≤ 9 * (h : ℚ) := by exact_mod_cast d1
      have q2 : (9 : ℚ) * h < 16 * ((9 * h / 16 : Nat) : ℚ) + 16 := by exact_mod_cast d2
      rw [abs_sub_lt_iff]
      constructor <;> linarith
    · dsimp only
      rw [abs_le]
      constructor <;> omega
    · dsimp only
      rw [abs_le]
      constructor <;> omega

/-- Witness for C1 at a 1920×1080 (16:9) source: cropped to the centered
1080-pixel-wide box `[656, 1263) × [0, 1080)` of width `floor(1080*9/16) = 607`. -/
theorem save_clip_vertical_crop_witness :
    ((0 < 1920 ∧ 0 < 1080) ∧ 9 * 1080 < 16 * 1920) ∧
    (save_clip 1920 1080 0 10 [] true).crop = verticalCrop 1920 1080 ∧
    verticalCrop 1920 1080 = ⟨656, 0, 1263, 1080⟩ ∧
    croppedW (verticalCrop 1920 1080) = 9 * 1080 / 16 ∧
    |(croppedW (verticalCrop 1920 1080) : ℚ) -
      9 * (croppedH (verticalCrop 1920 1080) : ℚ) / 16| < 1 :=
  ⟨⟨⟨by decide, by decide⟩, by decide⟩,
    (save_clip_vertical_crop 1920 1080 0 10 [] (by decide) (by decide)).1,
    by decide,
    ((save_clip_vertical_crop 1920 1080 0 10 [] (by decide) (by decide)).2.1 (by decide)).1,
    (save_clip_vertical_crop 1920 1080 0 10 [] (by decide) (by decide)).2.2.2.2.2.2.2.2.1⟩

/-- C2: for every selected subtitle segment `(st, et, t)` and clip range
`[cs, ce)`, `save_clip` re-times it to
`(max 0 (st - cs), min (et - cs) (ce - cs), t)` and keeps it in the
caption list; in particular segment `(5, 12, "hi")` with clip range
`(8, 20)` yields `(0, 4, "hi")`. -/
theorem save_clip_retimes_selected_segments (cs ce st et : ℚ) (t : String)
    (subs : List Segment) (hmem : (st, et, t) ∈ subs)
    (hsel1 : cs < et) (hsel2 : st < ce) :
    (max 0 (st - cs), min (et - cs) (ce - cs), t) ∈ clip_subtitles cs ce subs ∧
    retimeSeg cs ce (st, et, t) = (max 0 (st - cs), min (et - cs) (ce - cs), t) ∧
    clip_subtitles 8 20 [(5, 12, "hi")] = [(0, 4, "hi")] := by
  refine ⟨?_, rfl, ?_⟩
  · exact List.mem_map.mpr ⟨(st, et, t),
      (mem_filter_segSelected cs ce subs st et t).mpr ⟨hmem, hsel1, hsel2⟩, rfl⟩
  · norm_num [clip_subtitles, segSelected, retimeSeg]

/-- Witness for C2 at segment `(5, 12, "hi")` and clip range `(8, 20)`. -/
theorem save_clip_retimes_selected_segments_witness :
    ((5 : ℚ), (12 : ℚ), "hi") ∈ ([((5 : ℚ), (12 : ℚ), "hi")] : List Segment) ∧
    (max 0 ((5 : ℚ) - 8), min ((12 : ℚ) - 8) ((20 : ℚ) - 8), "hi") ∈
      clip_subtitles 8 20 [(5, 12, "hi")] ∧
    clip_subtitles 8 20 [(5, 12, "hi")] = [(0, 4, "hi")] :=
  ⟨List.mem_singleton.mpr rfl,
    (save_clip_retimes_selected_segments 8 20 5 12 "hi" [(5, 12, "hi")]
      (List.mem_singleton.mpr rfl) (by norm_num) (by norm_num)).1,
    (save_clip_retimes_selected_segments 8 20 5 12 "hi" [(5, 12, "hi")]
      (List.mem_singleton.mpr rfl) (by norm_num) (by norm_num)).2.2⟩

/-- C3: a segment enters the clip's caption set iff
`et > clip_start` and `st < clip_end`; segments entirely before or
after the clip range are excluded, e.g. `(0, 3, "x")` against `(8, 20)`. -/
theorem save_clip_selects_overlapping_segments (cs ce : ℚ) (subs : List Segment) :
    (∀ s e t, (s, e, t) ∈ subs.filter (segSelected cs ce) ↔
        ((s, e, t) ∈ subs ∧ cs < e ∧ s < ce)) ∧
    (∀ s e t, e ≤ cs ∨ ce ≤ s → (s, e, t) ∉ subs.filter (segSelected cs ce)) ∧
    clip_subtitles 8 20 [(0, 3, "x")] = [] := by
  refine ⟨fun s e t => mem_filter_segSelected cs ce subs s e t, ?_, ?_⟩
  · intro s e t hout hmem
    obtain ⟨-, h1, h2⟩ := (mem_filter_segSelected cs ce subs s e t).mp hmem
    rcases hout with h | h
    · linarith
    · linarith
  · norm_num [clip_subtitles, segSelected]

/-- Witness for C3: segment `(0, 3, "x")` is excluded from clip range `(8, 20)`. -/
theorem save_clip_selects_overlapping_segments_witness :
    ((3 : ℚ) ≤ 8 ∨ (20 : ℚ) ≤ 0) ∧
    ((0 : ℚ), (3 : ℚ), "x") ∉
      ([((0 : ℚ), (3 : ℚ), "x")] : List Segment).filter (segSelected 8 20) ∧
    clip_subtitles 8 20 [(0, 3, "x")] = [] :=
  ⟨Or.inl (by norm_num),
    (save_clip_selects_overlapping_segments 8 20 [(0, 3, "x")]).2.1 0 3 "x"
      (Or.inl (by norm_num)),
    (save_clip_selects_overlapping_segments 8 20 [(0, 3, "x")]).2.2⟩

/-- C9: under the segment invariant `0 ≤ start < end` and a nonempty clip
range, every caption `save_clip` renders satisfies
`0 ≤ rel_start < rel_end ≤ clip_end - clip_start`. -/
theorem save_clip_caption_times_well_formed (cs ce : ℚ) (subs : List Segment)
    (hseg : ∀ s e t, (s, e, t) ∈ subs → 0 ≤ s ∧ s < e) (hrange : cs < ce) :
    ∀ rs re t2, (rs, re, t2) ∈ clip_subtitles cs ce subs →
      0 ≤ rs ∧ rs < re ∧ re ≤ ce - cs := by
  intro rs re t2 hmem
  obtain ⟨⟨s, e, t⟩, hf, heq⟩ := List.mem_map.mp hmem
  obtain ⟨hin, h1, h2⟩ := (mem_filter_segSelected cs ce subs s e t).mp hf
  obtain ⟨hs0, hse⟩ := hseg s e t hin
  simp only [retimeSeg, Prod.mk.injEq] at heq
  obtain ⟨hrs, hre, -⟩ := heq
  subst hrs hre
  refine ⟨le_max_left 0 (s - cs), ?_, min_le_right (e - cs) (ce - cs)⟩
  exact lt_min (max_lt (by linarith) (by linarith)) (max_lt (by linarith) (by linarith))

/-- Witness for C9 at subtitles `[(5, 12, "hi")]` and clip range `(8, 20)`. -/
theorem save_clip_caption_times_well_formed_witness :
    ((8 : ℚ) < 20) ∧ (0 ≤ (0 : ℚ) ∧ (0 : ℚ) < 4 ∧ (4 : ℚ) ≤ 20 - 8) :=
  ⟨by norm_num,
    save_clip_caption_times_well_formed 8 20 [(5, 12, "hi")]
      (by intro s e t hm; rw [List.mem_singleton] at hm
          simp only [Prod.mk.injEq] at hm
          obtain ⟨h1, h2, -⟩ := hm
          subst h1 h2; norm_num)
      (by norm_num) 0 4 "hi"
      (by norm_num [clip_subtitles, segSelected, retimeSeg])⟩

/-- C7: an unrecognized filter name is a no-op passthrough (the rendered
clip is the unmodified source, not an error), while each of the seven
known names applies exactly its fixed transform. -/
theorem apply_filter_dispatch (name : String) (src : List Transform)
    (hu : name ∉ (["grayscale", "bright", "dark", "contrast",
                   "sepia", "vignette", "blur"] : List String)) :
    (apply_filter name src).transforms = src ∧
    (apply_filter "grayscale" src).transforms = src ++ [Transform.blackwhite] ∧
    (apply_filter "bright" src).transforms = src ++ [Transform.colorx (3/2)] ∧
    (apply_filter "dark" src).transforms = src ++ [Transform.colorx (7/10)] ∧
    (apply_filter "contrast" src).transforms = src ++ [Transform.lum_contrast (3/2)] ∧
    (apply_filter "sepia" src).transforms = src ++ [Transform.sepia] ∧
    (apply_filter "vignette" src).transforms = src ++ [Transform.vignette] ∧
    (apply_filter "blur" src).transforms = src ++ [Transform.gaussian_blur 1] := by
  refine ⟨?_, rfl, rfl, rfl, rfl, rfl, rfl, rfl⟩
  simp [apply_filter, selectFilter_unknown name hu]

/-- Witness for C7 at the unknown name `"pixelate"`. -/
theorem apply_filter_dispatch_witness :
    "pixelate" ∉ (["grayscale", "bright", "dark", "contrast",
                   "sepia", "vignette", "blur"] : List String) ∧
    (apply_filter "pixelate" [Transform.sepia]).transforms = [Transform.sepia] ∧
    (apply_filter "dark" [Transform.sepia]).transforms =
      [Transform.sepia] ++ [Transform.colorx (7/10)] :=
  ⟨by decide,
    (apply_filter_dispatch "pixelate" [Transform.sepia] (by decide)).1,
    (apply_filter_dispatch "pixelate" [Transform.sepia] (by decide)).2.2.2.1⟩

/-- C4: transcription partitions an audio of `L` milliseconds into
`ceil(D / 10)` contiguous 10-second windows (`D = L / 1000` seconds);
window `k` runs from `10 * k` to `min (10 * k + 10) D`; when `D` is not
a multiple of 10 the final window ends exactly at `D`; and the window
list is in chronological order. -/
theorem transcription_windows (L : Nat) :
    (windows L).length = Nat.ceil ((L : ℚ) / 1000 / 10) ∧
    (∀ k (hk : k < (windows L).length), (windows L).get ⟨k, hk⟩ =
      (10 * (k : ℚ), min (10 * (k : ℚ) + 10) ((L : ℚ) / 1000))) ∧
    (L % 10000 ≠ 0 → ((windows L).getLast?).map Prod.snd = some ((L : ℚ) / 1000)) ∧
    List.Pairwise (fun a b => a.1 < b.1) (windows L) := by
  refine ⟨by rw [windows_length, chunk_count_eq_ceil], windows_get L, ?_, ?_⟩
  · intro hmod
    have hpos : 0 < L := by omega
    have hlen : (windows L).length = (L + 9999) / 10000 := windows_length L
    have hlt : (windows L).length - 1 < (windows L).length := by omega
    have hget := windows_get L ((windows L).length - 1) hlt
    rw [List.get_eq_getElem] at hget
    rw [(windows L).getLast?_eq_getElem?, List.getElem?_eq_getElem hlt,
      Option.map_some', hget]
    dsimp only
    have hn1 : 1 ≤ (L + 9999) / 10000 := by omega
    have h2 : L ≤ 10000 * ((L + 9999) / 10000) := by omega
    have q2 : (L : ℚ) ≤ 10000 * ((((L + 9999) / 10000 : Nat)) : ℚ) := by
      exact_mod_cast h2
    have hle : (L : ℚ) / 1000 ≤ 10 * (((windows L).length - 1 : Nat) : ℚ) + 10 := by
      rw [hlen, Nat.cast_sub hn1, div_le_iff₀ (by norm_num : (0 : ℚ) < 1000)]
      push_cast
      linarith
    rw [min_eq_right hle]
  · unfold windows rangeStep
    rw [List.pairwise_map, List.pairwise_map]
    refine List.Pairwise.imp ?_ (List.pairwise_lt_range _)
    intro a b hab
    have hq : (a : ℚ) < (b : ℚ) := by exact_mod_cast hab
    simp only [winStart]
    push_cast
    linarith

/-- Witness for C4 at an audio of 25000 ms (25 s): three windows
`[(0, 10), (10, 20), (20, 25)]`, the last ending exactly at 25 s. -/
theorem transcription_windows_witness :
    (25000 % 10000 ≠ 0) ∧
    windows 25000 = [(0, 10), (10, 20), (20, 25)] ∧
    ((windows 25000).getLast?).map Prod.snd = some ((25000 : ℚ) / 1000) :=
  ⟨by decide,
    by norm_num [windows, rangeStep, winStart, winEnd, List.range_succ],
    (transcription_windows 25000).2.2.1 (by decide)⟩

/-- C8: every `save_clip` and every `apply_filter` invocation writes its
output with the fixed codec pairing `libx264` / `aac`, independently of
the vertical flag and of the filter name. -/
theorem output_codecs_fixed (w h : Nat) (cs ce : ℚ) (subs : List Segment)
    (vertical : Bool) (name : String) (src : List Transform) :
    (save_clip w h cs ce subs vertical).codec = "libx264" ∧
    (save_clip w h cs ce subs vertical).audio_codec = "aac" ∧
    (apply_filter name src).codec = "libx264" ∧
    (apply_filter name src).audio_codec = "aac" :=
  ⟨rfl, rfl, rfl, rfl⟩

/-- C5: when no window hits a failure outside the recognition attempt,
a recognition failure on a window is silently swallowed: the result is
exactly the segments of the successfully recognized windows, in window
order, and in particular the operation never aborts; a recognizer that
fails on every window (entirely unavailable) yields the empty list. -/
theorem transcription_recognition_failures_swallowed (L : Nat) (f : Nat → WinOutcome)
    (hne : ∀ i ∈ rangeStep L 10000, f i ≠ WinOutcome.err) :
    generate_subtitles (some L) f =
      ((rangeStep L 10000).filterMap fun i =>
        match f i with
        | WinOutcome.ok t => some (winStart i, winEnd L i, t)
        | _ => none) ∧
    generate_subtitles (some L) (fun _ => WinOutcome.recFail) = [] := by
  constructor
  · show (processWindows L f (rangeStep L 10000)).getD [] = _
    rw [processWindows_no_err L f _ hne]
    rfl
  · show (processWindows L (fun _ => WinOutcome.recFail) (rangeStep L 10000)).getD [] = _
    rw [processWindows_no_err L (fun _ => WinOutcome.recFail) _ fun i _ => by simp]
    simp

/-- Witness for C5: a 30 s audio whose middle window fails recognition
still yields the segments of the two successful windows. -/
theorem transcription_recognition_failures_swallowed_witness :
    (∀ i ∈ rangeStep 30000 10000, demoOracle i ≠ WinOutcome.err) ∧
    generate_subtitles (some 30000) demoOracle =
      ((rangeStep 30000 10000).filterMap fun i =>
        match demoOracle i with
        | WinOutcome.ok t => some (winStart i, winEnd 30000 i, t)
        | _ => none) ∧
    generate_subtitles (some 30000) demoOracle = [(0, 10, "a"), (20, 30, "b")] :=
  ⟨by decide,
    (transcription_recognition_failures_swallowed 30000 demoOracle (by decide)).1,
    by norm_num [generate_subtitles, processWindows, rangeStep, winStart, winEnd,
      List.range_succ, demoOracle]⟩

/-- C6 counterexample: a window failure outside the recognition attempt
(modelled by `err`, e.g. `recognizer.record` raising after the chunk was
exported) skips the `os.remove`, so the chunk file of window 0 leaks
past the call — the unconditional no-leak claim is false. -/
theorem temp_chunk_leak_counterexample :
    leakedFiles (windowTrace (fun _ => WinOutcome.err) (rangeStep 10000 10000)) = [0] ∧
    leakedFiles (windowTrace (fun _ => WinOutcome.err) (rangeStep 10000 10000)) ≠ [] := by
  have h1 : leakedFiles (windowTrace (fun _ => WinOutcome.err) (rangeStep 10000 10000))
      = [0] := rfl
  exact ⟨h1, by rw [h1]; exact List.cons_ne_nil 0 []⟩

/-- C6 (amended): provided no window hits a failure outside the
recognition attempt, each window's temp chunk file is created and then
removed before the next window is processed — regardless of whether the
recognition attempt on it succeeds or fails — and no temp chunk file
leaks past the transcription call. -/
theorem temp_chunk_cleanup (L : Nat) (f : Nat → WinOutcome)
    (hne : ∀ i ∈ rangeStep L 10000, f i ≠ WinOutcome.err) :
    windowTrace f (rangeStep L 10000) =
      ((rangeStep L 10000).flatMap fun i => [Ev.create i, Ev.remove i]) ∧
    leakedFiles (windowTrace f (rangeStep L 10000)) = [] := by
  have hs := windowTrace_no_err f (rangeStep L 10000) hne
  exact ⟨hs, by rw [hs]; exact leakedFiles_paired _⟩

/-- Witness for C6 (amended) on a 30 s audio with a recognition failure in
the middle window: all three chunk files are created and removed in
order, none leaks. -/
theorem temp_chunk_cleanup_witness :
    (∀ i ∈ rangeStep 30000 10000, demoOracle i ≠ WinOutcome.err) ∧
    windowTrace demoOracle (rangeStep 30000 10000) =
      [Ev.create 0, Ev.remove 0, Ev.create 10000, Ev.remove 10000,
        Ev.create 20000, Ev.remove 20000] ∧
    leakedFiles (windowTrace demoOracle (rangeStep 30000 10000)) = [] :=
  ⟨by decide, by decide, (temp_chunk_cleanup 30000 demoOracle (by decide)).2⟩

/-- C10: the transcription function never propagates an error: an audio
that cannot be loaded yields `[]`, and a failure outside a single
window's recognition attempt (e.g. a temp-file operation failing) makes
the whole call return `[]`, discarding even the segments already
collected from earlier windows. -/
theorem transcription_outer_failures_yield_empty (f g : Nat → WinOutcome) (L i : Nat)
    (hmem : i ∈ rangeStep L 10000) (herr : g i = WinOutcome.err) :
    generate_subtitles none f = [] ∧ generate_subtitles (some L) g = [] := by
  refine ⟨rfl, ?_⟩
  show (processWindows L g (rangeStep L 10000)).getD [] = _
  rw [processWindows_err L g _ i hmem herr]
  rfl

/-- Witness for C10: a 20 s audio whose first window was already
transcribed successfully still returns `[]` when the second window hits
a non-recognition failure. -/
theorem transcription_outer_failures_yield_empty_witness :
    (10000 ∈ rangeStep 20000 10000) ∧ demoOracleErr 10000 = WinOutcome.err ∧
    demoOracleErr 0 = WinOutcome.ok "a" ∧
    generate_subtitles none demoOracle = [] ∧
    generate_subtitles (some 20000) demoOracleErr = [] :=
  ⟨by decide, rfl, rfl,
    (transcription_outer_failures_yield_empty demoOracle demoOracleErr 20000 10000
      (by decide) rfl).1,
    (transcription_outer_failures_yield_empty demoOracle demoOracleErr 20000 10000
      (by decide) rfl).2⟩

end Viral
